import Mathlib

/-!
Verification development for the faceit repository (a Rust client binding
for the FACEIT REST API).  The Rust source under `src/` is embedded
shallowly:

* `Json` and `parseJson` model `serde_json` values and `serde_json::from_str`
  text parsing.  JSON numeric literals are modelled as integers, because
  every numeric field of the embedded DTO shapes is a 64-bit integer in the
  source; floating-point fields do not occur in the shapes under study.
* The serde derive semantics used by the DTOs in `src/types.rs` (rename
  attributes, optional fields decoded as absent-or-null, unknown fields
  ignored, duplicate declared fields rejected, missing mandatory fields
  rejected) are embedded by the `reqField` and `optField` combinators.
* `Client.handle_response` embeds the response classifier of
  `src/http/client.rs`; the HTTP request assembly of each operation is
  embedded as a pure `Request` value (URL, ordered query pairs, headers),
  which is the part of the operation the claims are about.  Rust `i64`
  query parameters are carried as `Int`; `i64::to_string` is `toString`.
* `chrono::DateTime<Utc>` values are carried abstractly as their RFC3339
  text (`DateTimeUtc`); no claim under study depends on date parsing.
-/

-- ===========================================================================
-- JSON values (model of serde_json::Value restricted to integer numerals)
-- ===========================================================================

inductive Json where
  | null
  | bool (b : Bool)
  | num (n : Int)
  | str (s : String)
  | arr (elems : List Json)
  | obj (fields : List (String × Json))

-- Characters that the scanner treats as text, named to keep literals simple.
def lbraceChar : Char := Char.ofNat 123
def rbraceChar : Char := Char.ofNat 125
def quoteChar : Char := Char.ofNat 34

-- JSON whitespace per RFC 8259 (what serde_json skips between tokens).
def skipWs : List Char → List Char
  | c :: rest =>
    if c = ' ' ∨ c = '\n' ∨ c = '\t' ∨ c = '\r' then skipWs rest else c :: rest
  | [] => []

def hexDigitVal (c : Char) : Option Nat :=
  if '0' ≤ c ∧ c ≤ '9' then some (c.toNat - 48)
  else if 'a' ≤ c ∧ c ≤ 'f' then some (c.toNat - 87)
  else if 'A' ≤ c ∧ c ≤ 'F' then some (c.toNat - 55)
  else none

def escapeChar (c : Char) : Option Char :=
  if c = quoteChar then some quoteChar
  else if c = '\\' then some '\\'
  else if c = '/' then some '/'
  else if c = 'b' then some (Char.ofNat 8)
  else if c = 'f' then some (Char.ofNat 12)
  else if c = 'n' then some '\n'
  else if c = 'r' then some '\r'
  else if c = 't' then some '\t'
  else none

-- Body of a string literal, after the opening quote; returns the decoded
-- characters and the input after the closing quote.
def parseStringBody (fuel : Nat) (cs : List Char) :
    Except String (List Char × List Char) :=
  match fuel, cs with
  | _, [] => .error "unterminated string"
  | 0, _ => .error "recursion limit reached"
  | fuel + 1, c :: rest =>
    if c = quoteChar then .ok ([], rest)
    else if c = '\\' then
      match rest with
      | [] => .error "unterminated string"
      | e :: rest2 =>
        if e = 'u' then
          match rest2 with
          | h1 :: h2 :: h3 :: h4 :: rest3 =>
            match hexDigitVal h1, hexDigitVal h2, hexDigitVal h3, hexDigitVal h4 with
            | some a, some b, some c3, some d =>
              (parseStringBody fuel rest3).map
                (fun p => (Char.ofNat (((a * 16 + b) * 16 + c3) * 16 + d) :: p.1, p.2))
            | _, _, _, _ => .error "invalid unicode escape"
          | _ => .error "invalid unicode escape"
        else
          match escapeChar e with
          | some ch => (parseStringBody fuel rest2).map (fun p => (ch :: p.1, p.2))
          | none => .error "invalid escape"
    else (parseStringBody fuel rest).map (fun p => (c :: p.1, p.2))

def spanDigits : List Char → List Char × List Char
  | c :: rest =>
    if c.isDigit then
      let p := spanDigits rest
      (c :: p.1, p.2)
    else ([], c :: rest)
  | [] => ([], [])

def digitsVal (ds : List Char) : Nat :=
  ds.foldl (fun a c => a * 10 + (c.toNat - 48)) 0

def dropLiteral : List Char → List Char → Option (List Char)
  | [], cs => some cs
  | _ :: _, [] => none
  | l :: ls, c :: cs => if c = l then dropLiteral ls cs else none

mutual

-- One JSON value, leading whitespace allowed; returns the rest of the input.
def parseValue : Nat → List Char → Except String (Json × List Char)
  | 0, _ => .error "recursion limit reached"
  | fuel + 1, cs =>
    match skipWs cs with
    | [] => .error "unexpected end of input"
    | c :: rest =>
      if c = lbraceChar then
        match skipWs rest with
        | r :: rs =>
          if r = rbraceChar then .ok (.obj [], rs)
          else parseMembers fuel (r :: rs)
        | [] => .error "unexpected end of input"
      else if c = '[' then
        match skipWs rest with
        | r :: rs =>
          if r = ']' then .ok (.arr [], rs)
          else parseElems fuel (r :: rs)
        | [] => .error "unexpected end of input"
      else if c = quoteChar then
        (parseStringBody (rest.length + 1) rest).map (fun p => (.str (String.mk p.1), p.2))
      else if c = 'n' then
        match dropLiteral ['u', 'l', 'l'] rest with
        | some rest2 => .ok (.null, rest2)
        | none => .error "expected ident"
      else if c = 't' then
        match dropLiteral ['r', 'u', 'e'] rest with
        | some rest2 => .ok (.bool true, rest2)
        | none => .error "expected ident"
      else if c = 'f' then
        match dropLiteral ['a', 'l', 's', 'e'] rest with
        | some rest2 => .ok (.bool false, rest2)
        | none => .error "expected ident"
      else if c = '-' then
        match spanDigits rest with
        | ([], _) => .error "invalid number"
        | (ds, rest2) => .ok (.num (-(digitsVal ds : Int)), rest2)
      else if c.isDigit then
        match spanDigits (c :: rest) with
        | (ds, rest2) => .ok (.num (digitsVal ds : Int), rest2)
      else .error "expected value"

-- Object members, positioned at the first key; consumes the closing brace.
def parseMembers : Nat → List Char → Except String (Json × List Char)
  | 0, _ => .error "recursion limit reached"
  | fuel + 1, cs =>
    match cs with
    | c :: rest =>
      if c = quoteChar then
        match parseStringBody (rest.length + 1) rest with
        | .error e => .error e
        | .ok (key, rest1) =>
          match skipWs rest1 with
          | ':' :: rest2 =>
            match parseValue fuel rest2 with
            | .error e => .error e
            | .ok (v, rest3) =>
              match skipWs rest3 with
              | s :: rest4 =>
                if s = ',' then
                  match parseMembers fuel (skipWs rest4) with
                  | .ok (.obj fields, rest5) =>
                    .ok (.obj ((String.mk key, v) :: fields), rest5)
                  | .ok _ => .error "expected object"
                  | .error e => .error e
                else if s = rbraceChar then
                  .ok (.obj [(String.mk key, v)], rest4)
                else .error "expected comma or end of object"
              | [] => .error "unexpected end of input"
          | _ => .error "expected colon"
      else .error "key must be a string"
    | [] => .error "unexpected end of input"

-- Array elements, positioned at the first element; consumes the bracket.
def parseElems : Nat → List Char → Except String (Json × List Char)
  | 0, _ => .error "recursion limit reached"
  | fuel + 1, cs =>
    match parseValue fuel cs with
    | .error e => .error e
    | .ok (v, rest) =>
      match skipWs rest with
      | s :: rest2 =>
        if s = ',' then
          match parseElems fuel rest2 with
          | .ok (.arr elems, rest3) => .ok (.arr (v :: elems), rest3)
          | .ok _ => .error "expected array"
          | .error e => .error e
        else if s = ']' then .ok (.arr [v], rest2)
        else .error "expected comma or end of array"
      | [] => .error "unexpected end of input"

end

-- serde_json::from_str on the full input: one value, then only trailing
-- whitespace may remain.
def parseJson (s : String) : Except String Json :=
  match parseValue (s.length + 1) s.data with
  | .error e => .error e
  | .ok (j, rest) =>
    if skipWs rest = [] then .ok j else .error "trailing characters"

-- ===========================================================================
-- serde derive semantics (field lookup, mandatory / optional fields)
-- ===========================================================================

-- Lookup of a declared field among the members of a JSON object.  The
-- derived serde deserializer consumes members in order, errors when a
-- declared field occurs twice, and ignores unknown members entirely.
def getOne : List (String × Json) → String → Except String (Option Json)
  | [], _ => .ok none
  | (k', j) :: rest, k =>
    if k' = k then
      match getOne rest k with
      | .ok none => .ok (some j)
      | .ok (some _) => .error ("duplicate field " ++ k)
      | .error e => .error e
    else getOne rest k

-- A mandatory field: absent means a decode error.
def reqField (fields : List (String × Json)) (k : String)
    (d : Json → Except String α) : Except String α :=
  match getOne fields k with
  | .error e => .error e
  | .ok none => .error ("missing field " ++ k)
  | .ok (some j) => d j

-- serde's Option semantics: an absent member and an explicit null both
-- decode to None; any other value must decode under `d`.
def optNull (d : Json → Except String α) : Option Json → Except String (Option α)
  | none => .ok none
  | some .null => .ok none
  | some j => (d j).map some

def optField (fields : List (String × Json)) (k : String)
    (d : Json → Except String α) : Except String (Option α) :=
  match getOne fields k with
  | .error e => .error e
  | .ok o => optNull d o

def decStr : Json → Except String String
  | .str s => .ok s
  | _ => .error "invalid type: expected string"

def decInt : Json → Except String Int
  | .num n => .ok n
  | _ => .error "invalid type: expected integer"

def decBool : Json → Except String Bool
  | .bool b => .ok b
  | _ => .error "invalid type: expected boolean"

def decList (d : Json → Except String α) : Json → Except String (List α)
  | .arr xs => xs.mapM d
  | _ => .error "invalid type: expected array"

-- HashMap<String, T> carried as an association list in member order.
def decMap (d : Json → Except String α) : Json → Except String (List (String × α))
  | .obj fs => fs.mapM (fun p => (d p.2).map (fun v => (p.1, v)))
  | _ => .error "invalid type: expected object"

def encOpt (e : α → Json) : Option α → Json
  | none => .null
  | some a => e a

def encList (e : α → Json) (xs : List α) : Json :=
  .arr (xs.map e)

def encMap (e : α → Json) (xs : List (String × α)) : Json :=
  .obj (xs.map (fun p => (p.1, e p.2)))

-- serde_json::from_str for a DTO: parse the text, then decode the value.
def fromStr (d : Json → Except String α) (s : String) : Except String α :=
  match parseJson s with
  | .error e => .error e
  | .ok j => d j

-- ===========================================================================
-- DTO shapes (src/types.rs), restricted to the shapes the claims name:
-- Player (with GameDetail, UserSettings) and MatchHistoryList (with
-- MatchHistory, HistoryFaction, MatchHistoryPlayer, MatchResult).
-- ===========================================================================

/-- chrono `DateTime<Utc>`, carried abstractly as its RFC3339 text. -/
structure DateTimeUtc where
  rfc3339 : String

/-- Game-specific player details (src/types.rs `GameDetail`). -/
structure GameDetail where
  faceit_elo : Option Int
  game_player_id : Option String
  game_player_name : Option String
  game_profile_id : Option String
  region : Option String
  regions : Option (List String)
  skill_level : Option Int
  skill_level_label : Option String

/-- User settings (src/types.rs `UserSettings`). -/
structure UserSettings where
  language : Option String

/-- Player DTO (src/types.rs `Player`). -/
structure Player where
  player_id : String
  nickname : String
  avatar : Option String
  country : Option String
  faceit_url : Option String
  steam_id_64 : Option String
  steam_nickname : Option String
  new_steam_id : Option String
  memberships : Option (List String)
  games : Option (List (String × GameDetail))
  verified : Option Bool
  activated_at : Option DateTimeUtc
  cover_image : Option String
  friends_ids : Option (List String)
  platforms : Option (List (String × String))
  settings : Option UserSettings

/-- Match result (src/types.rs `MatchResult`). -/
structure MatchResult where
  score : Option (List (String × Int))
  winner : Option String

/-- Match history player (src/types.rs `MatchHistoryPlayer`). -/
structure MatchHistoryPlayer where
  player_id : String
  nickname : String
  avatar : Option String
  faceit_url : Option String
  game_player_id : Option String
  game_player_name : Option String
  skill_level : Option Int

/-- History faction (src/types.rs `HistoryFaction`); `faction_type` is
serialized under the JSON key `type`. -/
structure HistoryFaction where
  team_id : Option String
  nickname : Option String
  avatar : Option String
  faction_type : Option String
  players : Option (List MatchHistoryPlayer)

/-- Match history entry (src/types.rs `MatchHistory`). -/
structure MatchHistory where
  match_id : String
  game_id : String
  region : Option String
  match_type : Option String
  game_mode : Option String
  max_players : Option Int
  teams_size : Option Int
  teams : Option (List (String × HistoryFaction))
  playing_players : Option (List String)
  competition_id : Option String
  competition_name : Option String
  competition_type : Option String
  organizer_id : Option String
  started_at : Option Int
  finished_at : Option Int
  status : String
  results : Option MatchResult
  faceit_url : Option String

/-- Match history list envelope (src/types.rs `MatchHistoryList`). -/
structure MatchHistoryList where
  start : Int
  «end» : Int
  «from» : Option Int
  «to» : Option Int
  items : List MatchHistory

-- ---------------------------------------------------------------------------
-- Decoders (the serde `Deserialize` derives, field by field)
-- ---------------------------------------------------------------------------

def decDateTime : Json → Except String DateTimeUtc
  | .str s => .ok ⟨s⟩
  | _ => .error "invalid type: expected RFC3339 string"

def decodeGameDetail : Json → Except String GameDetail
  | .obj fields => do
    let faceit_elo ← optField fields "faceit_elo" decInt
    let game_player_id ← optField fields "game_player_id" decStr
    let game_player_name ← optField fields "game_player_name" decStr
    let game_profile_id ← optField fields "game_profile_id" decStr
    let region ← optField fields "region" decStr
    let regions ← optField fields "regions" (decList decStr)
    let skill_level ← optField fields "skill_level" decInt
    let skill_level_label ← optField fields "skill_level_label" decStr
    pure ⟨faceit_elo, game_player_id, game_player_name, game_profile_id,
          region, regions, skill_level, skill_level_label⟩
  | _ => .error "invalid type: expected struct GameDetail"

def decodeUserSettings : Json → Except String UserSettings
  | .obj fields => do
    let language ← optField fields "language" decStr
    pure ⟨language⟩
  | _ => .error "invalid type: expected struct UserSettings"

/-- The JSON member names the `Player` deserializer recognizes. -/
def playerJsonKeys : List String :=
  ["player_id", "nickname", "avatar", "country", "faceit_url", "steam_id_64",
   "steam_nickname", "new_steam_id", "memberships", "games", "verified",
   "activated_at", "cover_image", "friends_ids", "platforms", "settings"]

def decodePlayer : Json → Except String Player
  | .obj fields => do
    let player_id ← reqField fields "player_id" decStr
    let nickname ← reqField fields "nickname" decStr
    let avatar ← optField fields "avatar" decStr
    let country ← optField fields "country" decStr
    let faceit_url ← optField fields "faceit_url" decStr
    let steam_id_64 ← optField fields "steam_id_64" decStr
    let steam_nickname ← optField fields "steam_nickname" decStr
    let new_steam_id ← optField fields "new_steam_id" decStr
    let memberships ← optField fields "memberships" (decList decStr)
    let games ← optField fields "games" (decMap decodeGameDetail)
    let verified ← optField fields "verified" decBool
    let activated_at ← optField fields "activated_at" decDateTime
    let cover_image ← optField fields "cover_image" decStr
    let friends_ids ← optField fields "friends_ids" (decList decStr)
    let platforms ← optField fields "platforms" (decMap decStr)
    let settings ← optField fields "settings" decodeUserSettings
    pure ⟨player_id, nickname, avatar, country, faceit_url, steam_id_64,
          steam_nickname, new_steam_id, memberships, games, verified,
          activated_at, cover_image, friends_ids, platforms, settings⟩
  | _ => .error "invalid type: expected struct Player"

def decodeMatchResult : Json → Except String MatchResult
  | .obj fields => do
    let score ← optField fields "score" (decMap decInt)
    let winner ← optField fields "winner" decStr
    pure ⟨score, winner⟩
  | _ => .error "invalid type: expected struct MatchResult"

def decodeMatchHistoryPlayer : Json → Except String MatchHistoryPlayer
  | .obj fields => do
    let player_id ← reqField fields "player_id" decStr
    let nickname ← reqField fields "nickname" decStr
    let avatar ← optField fields "avatar" decStr
    let faceit_url ← optField fields "faceit_url" decStr
    let game_player_id ← optField fields "game_player_id" decStr
    let game_player_name ← optField fields "game_player_name" decStr
    let skill_level ← optField fields "skill_level" decInt
    pure ⟨player_id, nickname, avatar, faceit_url, game_player_id,
          game_player_name, skill_level⟩
  | _ => .error "invalid type: expected struct MatchHistoryPlayer"

def decodeHistoryFaction : Json → Except String HistoryFaction
  | .obj fields => do
    let team_id ← optField fields "team_id" decStr
    let nickname ← optField fields "nickname" decStr
    let avatar ← optField fields "avatar" decStr
    let faction_type ← optField fields "type" decStr
    let players ← optField fields "players" (decList decodeMatchHistoryPlayer)
    pure ⟨team_id, nickname, avatar, faction_type, players⟩
  | _ => .error "invalid type: expected struct HistoryFaction"

def decodeMatchHistory : Json → Except String MatchHistory
  | .obj fields => do
    let match_id ← reqField fields "match_id" decStr
    let game_id ← reqField fields "game_id" decStr
    let region ← optField fields "region" decStr
    let match_type ← optField fields "match_type" decStr
    let game_mode ← optField fields "game_mode" decStr
    let max_players ← optField fields "max_players" decInt
    let teams_size ← optField fields "teams_size" decInt
    let teams ← optField fields "teams" (decMap decodeHistoryFaction)
    let playing_players ← optField fields "playing_players" (decList decStr)
    let competition_id ← optField fields "competition_id" decStr
    let competition_name ← optField fields "competition_name" decStr
    let competition_type ← optField fields "competition_type" decStr
    let organizer_id ← optField fields "organizer_id" decStr
    let started_at ← optField fields "started_at" decInt
    let finished_at ← optField fields "finished_at" decInt
    let status ← reqField fields "status" decStr
    let results ← optField fields "results" decodeMatchResult
    let faceit_url ← optField fields "faceit_url" decStr
    pure ⟨match_id, game_id, region, match_type, game_mode, max_players,
          teams_size, teams, playing_players, competition_id,
          competition_name, competition_type, organizer_id, started_at,
          finished_at, status, results, faceit_url⟩
  | _ => .error "invalid type: expected struct MatchHistory"

/-- The JSON member names the `MatchHistoryList` deserializer recognizes. -/
def matchHistoryListJsonKeys : List String :=
  ["start", "end", "from", "to", "items"]

def decodeMatchHistoryList : Json → Except String MatchHistoryList
  | .obj fields => do
    let start ← reqField fields "start" decInt
    let e ← reqField fields "end" decInt
    let f ← optField fields "from" decInt
    let t ← optField fields "to" decInt
    let items ← reqField fields "items" (decList decodeMatchHistory)
    pure ⟨start, e, f, t, items⟩
  | _ => .error "invalid type: expected struct MatchHistoryList"

-- ---------------------------------------------------------------------------
-- Encoders (the serde `Serialize` derives: declared order, None as null)
-- ---------------------------------------------------------------------------

def encDateTime (d : DateTimeUtc) : Json :=
  .str d.rfc3339

def encodeGameDetail (g : GameDetail) : Json :=
  .obj [("faceit_elo", encOpt Json.num g.faceit_elo),
        ("game_player_id", encOpt Json.str g.game_player_id),
        ("game_player_name", encOpt Json.str g.game_player_name),
        ("game_profile_id", encOpt Json.str g.game_profile_id),
        ("region", encOpt Json.str g.region),
        ("regions", encOpt (encList Json.str) g.regions),
        ("skill_level", encOpt Json.num g.skill_level),
        ("skill_level_label", encOpt Json.str g.skill_level_label)]

def encodeUserSettings (u : UserSettings) : Json :=
  .obj [("language", encOpt Json.str u.language)]

def encodePlayer (p : Player) : Json :=
  .obj [("player_id", .str p.player_id),
        ("nickname", .str p.nickname),
        ("avatar", encOpt Json.str p.avatar),
        ("country", encOpt Json.str p.country),
        ("faceit_url", encOpt Json.str p.faceit_url),
        ("steam_id_64", encOpt Json.str p.steam_id_64),
        ("steam_nickname", encOpt Json.str p.steam_nickname),
        ("new_steam_id", encOpt Json.str p.new_steam_id),
        ("memberships", encOpt (encList Json.str) p.memberships),
        ("games", encOpt (encMap encodeGameDetail) p.games),
        ("verified", encOpt Json.bool p.verified),
        ("activated_at", encOpt encDateTime p.activated_at),
        ("cover_image", encOpt Json.str p.cover_image),
        ("friends_ids", encOpt (encList Json.str) p.friends_ids),
        ("platforms", encOpt (encMap Json.str) p.platforms),
        ("settings", encOpt encodeUserSettings p.settings)]

def encodeMatchResult (r : MatchResult) : Json :=
  .obj [("score", encOpt (encMap Json.num) r.score),
        ("winner", encOpt Json.str r.winner)]

def encodeMatchHistoryPlayer (p : MatchHistoryPlayer) : Json :=
  .obj [("player_id", .str p.player_id),
        ("nickname", .str p.nickname),
        ("avatar", encOpt Json.str p.avatar),
        ("faceit_url", encOpt Json.str p.faceit_url),
        ("game_player_id", encOpt Json.str p.game_player_id),
        ("game_player_name", encOpt Json.str p.game_player_name),
        ("skill_level", encOpt Json.num p.skill_level)]

def encodeHistoryFaction (f : HistoryFaction) : Json :=
  .obj [("team_id", encOpt Json.str f.team_id),
        ("nickname", encOpt Json.str f.nickname),
        ("avatar", encOpt Json.str f.avatar),
        ("type", encOpt Json.str f.faction_type),
        ("players", encOpt (encList encodeMatchHistoryPlayer) f.players)]

def encodeMatchHistory (m : MatchHistory) : Json :=
  .obj [("match_id", .str m.match_id),
        ("game_id", .str m.game_id),
        ("region", encOpt Json.str m.region),
        ("match_type", encOpt Json.str m.match_type),
        ("game_mode", encOpt Json.str m.game_mode),
        ("max_players", encOpt Json.num m.max_players),
        ("teams_size", encOpt Json.num m.teams_size),
        ("teams", encOpt (encMap encodeHistoryFaction) m.teams),
        ("playing_players", encOpt (encList Json.str) m.playing_players),
        ("competition_id", encOpt Json.str m.competition_id),
        ("competition_name", encOpt Json.str m.competition_name),
        ("competition_type", encOpt Json.str m.competition_type),
        ("organizer_id", encOpt Json.str m.organizer_id),
        ("started_at", encOpt Json.num m.started_at),
        ("finished_at", encOpt Json.num m.finished_at),
        ("status", .str m.status),
        ("results", encOpt encodeMatchResult m.results),
        ("faceit_url", encOpt Json.str m.faceit_url)]

def encodeMatchHistoryList (l : MatchHistoryList) : Json :=
  .obj [("start", .num l.start),
        ("end", .num l.«end»),
        ("from", encOpt Json.num l.«from»),
        ("to", encOpt Json.num l.«to»),
        ("items", encList encodeMatchHistory l.items)]

-- ===========================================================================
-- Error taxonomy and the response classifier (src/http/client.rs)
-- ===========================================================================

/-- Modelled from the spec: `src/error.rs` is declared by `lib.rs`
(`pub mod error`) but its source is not present under `src/`.  The variants
follow the spec's error taxonomy (Transport failure, Invalid-Credential for
401, Server-Error for 500 with no diagnostic body retained, and a general
API error carrying status code and diagnostic text) together with the
constructor shapes pinned by the construction sites in
`src/http/client.rs`: `Error::Http(e)`, `Error::Api(status, text)`,
`Error::InvalidApiKey` and `Error::ServerError` (both payload-free), and a
JSON error variant mentioned by the doc comments. -/
inductive Error where
  | Http (message : String)
  | Api (status : Nat) (message : String)
  | Json (message : String)
  | InvalidApiKey
  | ServerError

/-- reqwest `StatusCode::is_success`: the 200-299 range. -/
def is_success (status : Nat) : Bool :=
  decide (200 ≤ status) && decide (status < 300)

/-- `Client::handle_response` (src/http/client.rs lines 1420-1471), as a
function of the completed exchange: the numeric status and the body text
(the Rust code has already read the full body into `response_text`; a
transport failure would have been surfaced as `Error::Http` by `?` before
this point).  The decoding of the body into the operation's result shape is
the `dec` parameter, instantiated per operation with `fromStr` of the
declared DTO decoder.  The Rust `match` on the status code in the
non-success early return is written as the equivalent chain of equality
tests. -/
def handle_response (dec : String → Except String α) (status : Nat)
    (response_text : String) : Except Error α :=
  if is_success status then
    match dec response_text with
    | .ok json => .ok json
    | .error e =>
      .error (.Api status
        ("Failed to parse JSON response: " ++ e ++ ". Response body: " ++ response_text))
  else
    if status = 400 then .error (.Api status ("Bad request: " ++ response_text))
    else if status = 401 then .error .InvalidApiKey
    else if status = 403 then .error (.Api status ("Forbidden: " ++ response_text))
    else if status = 404 then .error (.Api status ("Not found: " ++ response_text))
    else if status = 429 then .error (.Api status ("Too many requests: " ++ response_text))
    else if status = 500 then .error .ServerError
    else if status = 503 then
      .error (.Api status ("Service temporarily unavailable: " ++ response_text))
    else .error (.Api status response_text)

-- ===========================================================================
-- Client configuration and request assembly (src/http/client.rs)
-- ===========================================================================

/-- The immutable client configuration (`Client` in src/http/client.rs).
The underlying reqwest transport handle and the timeout it captured at
build time carry no logic of their own and are not part of the embedding. -/
structure Client where
  base_url : String
  api_key : Option String

/-- An assembled outgoing request: the URL from the path template, the
ordered query pairs added by `.query(&[(k, v)])` calls, and the headers. -/
structure Request where
  url : String
  query : List (String × String)
  headers : List (String × String)

/-- `Client::add_api_key_header`: attach `Authorization: Bearer {key}` when
a credential is configured, otherwise return the request unchanged
(reqwest's `RequestBuilder::header` appends to the header list). -/
def Client.add_api_key_header (c : Client) (request : Request) : Request :=
  match c.api_key with
  | some api_key =>
    { request with headers := request.headers ++ [("Authorization", "Bearer " ++ api_key)] }
  | none => request

/-- An optional `i64` query parameter: `if let Some(v) { .query(&[(name, v.to_string())]) }`. -/
def optIntParam (name : String) : Option Int → List (String × String)
  | some v => [(name, toString v)]
  | none => []

/-- An optional `&str` query parameter. -/
def optStrParam (name : String) : Option String → List (String × String)
  | some v => [(name, v)]
  | none => []

def Client.get_player (c : Client) (player_id : String) : Request :=
  c.add_api_key_header
    { url := c.base_url ++ "/data/v4/players/" ++ player_id,
      query := [], headers := [] }

def Client.get_player_stats (c : Client) (player_id game_id : String) : Request :=
  c.add_api_key_header
    { url := c.base_url ++ "/data/v4/players/" ++ player_id ++ "/stats/" ++ game_id,
      query := [], headers := [] }

def Client.get_player_history (c : Client) (player_id game : String)
    («from» «to» offset limit : Option Int) : Request :=
  c.add_api_key_header
    { url := c.base_url ++ "/data/v4/players/" ++ player_id ++ "/history",
      query := [("game", game)] ++ optIntParam "from" «from» ++ optIntParam "to" «to»
               ++ optIntParam "offset" offset ++ optIntParam "limit" limit,
      headers := [] }

def Client.get_player_bans (c : Client) (player_id : String)
    (offset limit : Option Int) : Request :=
  c.add_api_key_header
    { url := c.base_url ++ "/data/v4/players/" ++ player_id ++ "/bans",
      query := optIntParam "offset" offset ++ optIntParam "limit" limit,
      headers := [] }

def Client.get_player_hubs (c : Client) (player_id : String)
    (offset limit : Option Int) : Request :=
  c.add_api_key_header
    { url := c.base_url ++ "/data/v4/players/" ++ player_id ++ "/hubs",
      query := optIntParam "offset" offset ++ optIntParam "limit" limit,
      headers := [] }

def Client.get_player_teams (c : Client) (player_id : String)
    (offset limit : Option Int) : Request :=
  c.add_api_key_header
    { url := c.base_url ++ "/data/v4/players/" ++ player_id ++ "/teams",
      query := optIntParam "offset" offset ++ optIntParam "limit" limit,
      headers := [] }

def Client.get_player_tournaments (c : Client) (player_id : String)
    (offset limit : Option Int) : Request :=
  c.add_api_key_header
    { url := c.base_url ++ "/data/v4/players/" ++ player_id ++ "/tournaments",
      query := optIntParam "offset" offset ++ optIntParam "limit" limit,
      headers := [] }

/-- `Client::get_hub`: a present `expanded` slice is joined with commas into
a single `expanded` query parameter. -/
def Client.get_hub (c : Client) (hub_id : String)
    (expanded : Option (List String)) : Request :=
  c.add_api_key_header
    { url := c.base_url ++ "/data/v4/hubs/" ++ hub_id,
      query := match expanded with
               | some xs => [("expanded", String.intercalate "," xs)]
               | none => [],
      headers := [] }

/-- `Client::get_championship`: same `expanded` treatment as `get_hub`. -/
def Client.get_championship (c : Client) (championship_id : String)
    (expanded : Option (List String)) : Request :=
  c.add_api_key_header
    { url := c.base_url ++ "/data/v4/championships/" ++ championship_id,
      query := match expanded with
               | some xs => [("expanded", String.intercalate "," xs)]
               | none => [],
      headers := [] }

-- ===========================================================================
-- Ergonomic wrapper (src/http/ergonomic/player.rs)
-- ===========================================================================

namespace Ergonomic

/-- The ergonomic `Player` handle: a stored identifier plus the borrowed
core client it delegates to. -/
structure Player where
  player_id : String
  client : Client

def Player.new (player_id : String) (client : Client) : Player :=
  ⟨player_id, client⟩

def Player.get (p : Player) : Request :=
  p.client.get_player p.player_id

def Player.stats (p : Player) (game_id : String) : Request :=
  p.client.get_player_stats p.player_id game_id

def Player.history (p : Player) (game : String)
    («from» «to» offset limit : Option Int) : Request :=
  p.client.get_player_history p.player_id game «from» «to» offset limit

def Player.bans (p : Player) (offset limit : Option Int) : Request :=
  p.client.get_player_bans p.player_id offset limit

def Player.hubs (p : Player) (offset limit : Option Int) : Request :=
  p.client.get_player_hubs p.player_id offset limit

def Player.teams (p : Player) (offset limit : Option Int) : Request :=
  p.client.get_player_teams p.player_id offset limit

def Player.tournaments (p : Player) (offset limit : Option Int) : Request :=
  p.client.get_player_tournaments p.player_id offset limit

end Ergonomic

/-- The decoded value of the fixture body with only the two mandatory
`Player` fields present. -/
def playerP1 : Player :=
  { player_id := "p1", nickname := "foo", avatar := none, country := none,
    faceit_url := none, steam_id_64 := none, steam_nickname := none,
    new_steam_id := none, memberships := none, games := none,
    verified := none, activated_at := none, cover_image := none,
    friends_ids := none, platforms := none, settings := none }

-- ===========================================================================
-- Helper lemmas
-- ===========================================================================

@[simp]
theorem add_api_key_header_url (c : Client) (r : Request) :
    (c.add_api_key_header r).url = r.url := by
  cases h : c.api_key <;> simp [Client.add_api_key_header, h]

@[simp]
theorem add_api_key_header_query (c : Client) (r : Request) :
    (c.add_api_key_header r).query = r.query := by
  cases h : c.api_key <;> simp [Client.add_api_key_header, h]

theorem handle_response_nonsuccess_shape (dec : String → Except String α)
    (s : Nat) (b : String) (h : is_success s = false) :
    handle_response dec s b = .error .InvalidApiKey ∨
    handle_response dec s b = .error .ServerError ∨
    ∃ m, handle_response dec s b = .error (.Api s m) := by
  unfold handle_response
  rw [h]
  simp only [Bool.false_eq_true, if_false]
  split_ifs <;> simp

-- ===========================================================================
-- Claim theorems
-- ===========================================================================

/-- C1: for every response with HTTP status 500, the classifier
`handle_response` returns the Server-Error kind, independently of the body
text, and the returned `Error.ServerError` value is the payload-free
constructor: it carries no body text. -/
theorem C1_status_500_is_server_error {α : Type} (dec : String → Except String α)
    (body : String) :
    handle_response dec 500 body = .error Error.ServerError ∧
    (∀ body2 : String, handle_response dec 500 body = handle_response dec 500 body2) := by
  exact ⟨rfl, fun _ => rfl⟩

/-- C3: for every response with HTTP status 401, regardless of the body
content, the classifier returns `Error.InvalidApiKey`, which is never equal
to a generic `Error.Api` value. -/
theorem C3_status_401_is_invalid_api_key {α : Type} (dec : String → Except String α)
    (body : String) :
    handle_response dec 401 body = .error Error.InvalidApiKey ∧
    (∀ (s : Nat) (m : String), Error.InvalidApiKey ≠ Error.Api s m) := by
  exact ⟨rfl, fun s m h => Error.noConfusion h⟩

/-- C6: authentication injection is a pure function of the request and the
optional configured credential: with a configured credential the request
gains exactly one `Authorization` header whose value is `Bearer ` followed
by the credential, and nothing else changes; without one the request is
returned unchanged. -/
theorem C6_add_api_key_header_contract (base key : String) (r : Request) :
    ((Client.mk base (some key)).add_api_key_header r).url = r.url ∧
    ((Client.mk base (some key)).add_api_key_header r).query = r.query ∧
    ((Client.mk base (some key)).add_api_key_header r).headers
      = r.headers ++ [("Authorization", "Bearer " ++ key)] ∧
    (((Client.mk base (some key)).add_api_key_header r).headers.filter
        (fun p => p.1 == "Authorization")).length
      = (r.headers.filter (fun p => p.1 == "Authorization")).length + 1 ∧
    (Client.mk base none).add_api_key_header r = r := by
  refine ⟨rfl, rfl, rfl, ?_, rfl⟩
  simp [Client.add_api_key_header, List.filter_append]

/-- C8: every ergonomic `Player` wrapper method returns exactly the result
of the corresponding core client operation with the stored identifier
substituted and all other arguments forwarded unchanged; in particular
`Player::new(player_id, client).get()` equals `client.get_player(player_id)`. -/
theorem C8_ergonomic_player_delegates (player_id game : String) (c : Client)
    («from» «to» offset limit : Option Int) :
    (Ergonomic.Player.new player_id c).get = c.get_player player_id ∧
    (Ergonomic.Player.new player_id c).stats game
      = c.get_player_stats player_id game ∧
    (Ergonomic.Player.new player_id c).history game «from» «to» offset limit
      = c.get_player_history player_id game «from» «to» offset limit ∧
    (Ergonomic.Player.new player_id c).bans offset limit
      = c.get_player_bans player_id offset limit ∧
    (Ergonomic.Player.new player_id c).hubs offset limit
      = c.get_player_hubs player_id offset limit ∧
    (Ergonomic.Player.new player_id c).teams offset limit
      = c.get_player_teams player_id offset limit ∧
    (Ergonomic.Player.new player_id c).tournaments offset limit
      = c.get_player_tournaments player_id offset limit := by
  exact ⟨rfl, rfl, rfl, rfl, rfl, rfl, rfl⟩

/-- C10: for `get_hub` and `get_championship`, a present `expanded` slice is
sent as one single `expanded` query parameter whose value is the elements
joined by commas (`["organizer", "game"]` becomes `organizer,game`), and an
absent slice adds no query parameter at all. -/
theorem C10_expanded_joined_with_commas (c : Client)
    (hub_id championship_id : String) (xs : List String) :
    (c.get_hub hub_id (some xs)).query
      = [("expanded", String.intercalate "," xs)] ∧
    (c.get_hub hub_id none).query = [] ∧
    (c.get_hub hub_id (some ["organizer", "game"])).query
      = [("expanded", "organizer,game")] ∧
    (c.get_championship championship_id (some xs)).query
      = [("expanded", String.intercalate "," xs)] ∧
    (c.get_championship championship_id none).query = [] ∧
    (c.get_championship championship_id (some ["organizer", "game"])).query
      = [("expanded", "organizer,game")] := by
  refine ⟨?_, ?_, ?_, ?_, ?_, ?_⟩ <;>
    simp [Client.get_hub, Client.get_championship] <;> rfl

/-- C4: an absent optional query parameter never appears in the outgoing
query pairs and a present one appears with exactly the caller-supplied
value, numbers rendered as their plain decimal string; a call with
`offset=None, limit=Some(20)` yields a query containing only `limit=20`
and never `offset`. -/
theorem C4_optional_query_params (c : Client) (player_id game : String)
    (f t off lim : Option Int) (v : Int) :
    "offset" ∉ (c.get_player_history player_id game f t none lim).query.map Prod.fst ∧
    ("offset", toString v)
      ∈ (c.get_player_history player_id game f t (some v) lim).query ∧
    "limit" ∉ (c.get_player_history player_id game f t off none).query.map Prod.fst ∧
    ("limit", toString v)
      ∈ (c.get_player_history player_id game f t off (some v)).query ∧
    "from" ∉ (c.get_player_history player_id game none t off lim).query.map Prod.fst ∧
    ("from", toString v)
      ∈ (c.get_player_history player_id game (some v) t off lim).query ∧
    "to" ∉ (c.get_player_history player_id game f none off lim).query.map Prod.fst ∧
    ("to", toString v)
      ∈ (c.get_player_history player_id game f (some v) off lim).query ∧
    (c.get_player_bans player_id none (some 20)).query = [("limit", "20")] := by
  refine ⟨?_, ?_, ?_, ?_, ?_, ?_, ?_, ?_, ?_⟩ <;>
    [rcases f with _ | fv <;> rcases t with _ | tv <;> rcases lim with _ | lv;
     skip; rcases f with _ | fv <;> rcases t with _ | tv <;> rcases off with _ | ov;
     skip; rcases t with _ | tv <;> rcases off with _ | ov <;> rcases lim with _ | lv;
     skip; rcases f with _ | fv <;> rcases off with _ | ov <;> rcases lim with _ | lv;
     skip; skip] <;>
    simp [Client.get_player_history, Client.get_player_bans, optIntParam] <;> rfl

/-- C2: for every success-status (200-299) response whose body text fails to
decode into the operation's declared result shape, the classifier returns a
decode-failure `Error.Api` whose message is the parser diagnostic
concatenated with the raw body text (so the error text contains both), and
this classification is distinct from every classification produced for a
non-2xx status. -/
theorem C2_decode_failure_distinct {α : Type} (dec : String → Except String α)
    (status : Nat) (body e : String)
    (hs : is_success status = true) (hd : dec body = .error e) :
    handle_response dec status body
      = .error (.Api status
          ("Failed to parse JSON response: " ++ e ++ ". Response body: " ++ body)) ∧
    (∃ pre post,
      "Failed to parse JSON response: " ++ e ++ ". Response body: " ++ body
        = pre ++ e ++ post) ∧
    (∃ pre post,
      "Failed to parse JSON response: " ++ e ++ ". Response body: " ++ body
        = pre ++ body ++ post) ∧
    (∀ (status2 : Nat) (body2 : String) (err2 : Error),
        is_success status2 = false →
        handle_response dec status2 body2 = .error err2 →
        err2 ≠ .Api status
          ("Failed to parse JSON response: " ++ e ++ ". Response body: " ++ body)) := by
  refine ⟨?_, ?_, ?_, ?_⟩
  · unfold handle_response
    rw [hs, hd]
    simp
  · exact ⟨"Failed to parse JSON response: ", ". Response body: " ++ body, by
      simp [String.append_assoc]⟩
  · exact ⟨"Failed to parse JSON response: " ++ e ++ ". Response body: ", "", by
      simp [String.append_assoc]⟩
  · intro status2 body2 err2 h2 hr
    have hne : status2 ≠ status := by
      intro h
      rw [h, hs] at h2
      exact Bool.noConfusion h2
    rcases handle_response_nonsuccess_shape dec status2 body2 h2 with h | h | ⟨m, h⟩ <;>
      rw [hr] at h <;> injection h with h <;> subst h
    · exact fun heq => Error.noConfusion heq
    · exact fun heq => Error.noConfusion heq
    · exact fun heq => hne (by injection heq)

/-- Witness for C2 at concrete inputs: a 200 response whose body is not
valid JSON, decoded with the Player pipeline, yields the decode-failure
API error carrying the diagnostic and the raw body. -/
theorem C2_decode_failure_distinct_witness :
    handle_response (fromStr decodePlayer) 200 "not json"
      = .error (.Api 200
          ("Failed to parse JSON response: " ++ "expected ident"
            ++ ". Response body: " ++ "not json")) :=
  (C2_decode_failure_distinct (fromStr decodePlayer) 200 "not json" "expected ident"
    (by decide) (by rfl)).1

/-- C5: decoding succeeds when documented-optional fields are absent
(representing them as absent) and fails when a mandatory field is absent or
of the wrong declared type: the body with only `player_id` and `nickname`
yields the Player with every optional field `none`; the same object without
`player_id` fails; `player_id` of the wrong type fails. -/
theorem C5_mandatory_vs_optional_fields :
    fromStr decodePlayer "\x7b\"player_id\":\"p1\",\"nickname\":\"foo\"\x7d"
      = .ok playerP1 ∧
    fromStr decodePlayer "\x7b\"nickname\":\"foo\"\x7d"
      = .error "missing field player_id" ∧
    fromStr decodePlayer "\x7b\"player_id\":7,\"nickname\":\"foo\"\x7d"
      = .error "invalid type: expected string" := by
  exact ⟨rfl, rfl, rfl⟩

theorem getOne_append_of_ne (fields : List (String × Json)) (name k : String)
    (v : Json) (h : k ≠ name) :
    getOne (fields ++ [(name, v)]) k = getOne fields k := by
  induction fields with
  | nil => simp [getOne, Ne.symm h]
  | cons p rest ih =>
    obtain ⟨k', j⟩ := p
    simp only [List.cons_append, getOne, List.append_eq]
    rw [ih]

/-- C9: the Player deserializer tolerates unknown extra JSON fields: if an
object decodes successfully, adding a member whose name is not one of the
declared Player keys still decodes successfully to the same value. -/
theorem C9_unknown_fields_ignored (fields : List (String × Json)) (name : String)
    (v : Json) (p : Player) (hname : name ∉ playerJsonKeys)
    (hdec : decodePlayer (.obj fields) = .ok p) :
    decodePlayer (.obj (fields ++ [(name, v)])) = .ok p := by
  have key : ∀ k, k ∈ playerJsonKeys → getOne (fields ++ [(name, v)]) k = getOne fields k := by
    intro k hk
    exact getOne_append_of_ne fields name k v (fun h => hname (h ▸ hk))
  rw [← hdec]
  simp only [decodePlayer, reqField, optField]
  rw [key "player_id" (by simp [playerJsonKeys]),
      key "nickname" (by simp [playerJsonKeys]),
      key "avatar" (by simp [playerJsonKeys]),
      key "country" (by simp [playerJsonKeys]),
      key "faceit_url" (by simp [playerJsonKeys]),
      key "steam_id_64" (by simp [playerJsonKeys]),
      key "steam_nickname" (by simp [playerJsonKeys]),
      key "new_steam_id" (by simp [playerJsonKeys]),
      key "memberships" (by simp [playerJsonKeys]),
      key "games" (by simp [playerJsonKeys]),
      key "verified" (by simp [playerJsonKeys]),
      key "activated_at" (by simp [playerJsonKeys]),
      key "cover_image" (by simp [playerJsonKeys]),
      key "friends_ids" (by simp [playerJsonKeys]),
      key "platforms" (by simp [playerJsonKeys]),
      key "settings" (by simp [playerJsonKeys])]

/-- Witness for C9 at concrete inputs: appending an undeclared `extra`
member to the minimal Player object leaves the decoded value unchanged. -/
theorem C9_unknown_fields_ignored_witness :
    decodePlayer (.obj ([("player_id", .str "p1"), ("nickname", .str "foo")]
        ++ [("extra", .bool true)])) = .ok playerP1 :=
  C9_unknown_fields_ignored
    [("player_id", .str "p1"), ("nickname", .str "foo")] "extra" (.bool true)
    playerP1 (by simp [playerJsonKeys]) (by rfl)

@[simp]
theorem except_bind_ok (a : α) (f : α → Except ε β) :
    (Except.ok a : Except ε α) >>= f = f a := rfl

theorem optNull_some_of_ok (d : Json → Except String α) (j : Json) (a : α)
    (hnn : j ≠ .null) (h : d j = .ok a) : optNull d (some j) = .ok (some a) := by
  cases j <;> simp_all [optNull] <;> rfl

theorem optNull_encOpt (d : Json → Except String α) (e : α → Json)
    (hok : ∀ a, d (e a) = .ok a) (hnn : ∀ a, e a ≠ .null) (v : Option α) :
    optNull d (some (encOpt e v)) = .ok v := by
  cases v with
  | none => rfl
  | some a => exact optNull_some_of_ok d (e a) a (hnn a) (hok a)

theorem decList_encList (d : Json → Except String α) (e : α → Json)
    (h : ∀ a, d (e a) = .ok a) (xs : List α) :
    decList d (encList e xs) = .ok xs := by
  induction xs with
  | nil => rfl
  | cons a rest ih =>
    simp only [encList, List.map_cons, decList, List.mapM_cons] at *
    rw [h a]
    simp only [except_bind_ok]
    rw [ih]
    rfl

theorem decMap_encMap (d : Json → Except String α) (e : α → Json)
    (h : ∀ a, d (e a) = .ok a) (xs : List (String × α)) :
    decMap d (encMap e xs) = .ok xs := by
  induction xs with
  | nil => rfl
  | cons p rest ih =>
    obtain ⟨k, a⟩ := p
    simp only [encMap, List.map_cons, decMap, List.mapM_cons] at *
    rw [h a]
    rw [show ((Except.ok a : Except String α).map (fun v => (k, v)))
          = Except.ok (k, a) from rfl]
    simp only [except_bind_ok]
    rw [ih]
    rfl

theorem optNull_str (v : Option String) :
    optNull decStr (some (encOpt Json.str v)) = .ok v :=
  optNull_encOpt decStr Json.str (fun _ => rfl) (fun _ h => Json.noConfusion h) v

theorem optNull_int (v : Option Int) :
    optNull decInt (some (encOpt Json.num v)) = .ok v :=
  optNull_encOpt decInt Json.num (fun _ => rfl) (fun _ h => Json.noConfusion h) v

theorem optNull_bool (v : Option Bool) :
    optNull decBool (some (encOpt Json.bool v)) = .ok v :=
  optNull_encOpt decBool Json.bool (fun _ => rfl) (fun _ h => Json.noConfusion h) v

theorem optNull_dt (v : Option DateTimeUtc) :
    optNull decDateTime (some (encOpt encDateTime v)) = .ok v :=
  optNull_encOpt decDateTime encDateTime (fun _ => rfl)
    (fun _ h => by simp [encDateTime] at h) v

theorem optNull_strList (v : Option (List String)) :
    optNull (decList decStr) (some (encOpt (encList Json.str) v)) = .ok v :=
  optNull_encOpt (decList decStr) (encList Json.str)
    (fun xs => decList_encList decStr Json.str (fun _ => rfl) xs)
    (fun _ h => by simp [encList] at h) v

theorem optNull_strMap (v : Option (List (String × String))) :
    optNull (decMap decStr) (some (encOpt (encMap Json.str) v)) = .ok v :=
  optNull_encOpt (decMap decStr) (encMap Json.str)
    (fun xs => decMap_encMap decStr Json.str (fun _ => rfl) xs)
    (fun _ h => by simp [encMap] at h) v

theorem optNull_intMap (v : Option (List (String × Int))) :
    optNull (decMap decInt) (some (encOpt (encMap Json.num) v)) = .ok v :=
  optNull_encOpt (decMap decInt) (encMap Json.num)
    (fun xs => decMap_encMap decInt Json.num (fun _ => rfl) xs)
    (fun _ h => by simp [encMap] at h) v

theorem rt_GameDetail (g : GameDetail) :
    decodeGameDetail (encodeGameDetail g) = .ok g := by
  cases g
  simp [decodeGameDetail, encodeGameDetail, optField, getOne,
        optNull_str, optNull_int, optNull_strList]

theorem rt_UserSettings (u : UserSettings) :
    decodeUserSettings (encodeUserSettings u) = .ok u := by
  cases u
  simp [decodeUserSettings, encodeUserSettings, optField, getOne, optNull_str]

theorem optNull_gameDetailMap (v : Option (List (String × GameDetail))) :
    optNull (decMap decodeGameDetail) (some (encOpt (encMap encodeGameDetail) v)) = .ok v :=
  optNull_encOpt (decMap decodeGameDetail) (encMap encodeGameDetail)
    (fun xs => decMap_encMap decodeGameDetail encodeGameDetail rt_GameDetail xs)
    (fun _ h => by simp [encMap] at h) v

theorem optNull_settings (v : Option UserSettings) :
    optNull decodeUserSettings (some (encOpt encodeUserSettings v)) = .ok v :=
  optNull_encOpt decodeUserSettings encodeUserSettings rt_UserSettings
    (fun u => by cases u; simp [encodeUserSettings]) v

theorem rt_Player (p : Player) : decodePlayer (encodePlayer p) = .ok p := by
  cases p
  simp [decodePlayer, encodePlayer, reqField, optField, getOne, decStr,
        optNull_str, optNull_int, optNull_bool, optNull_dt, optNull_strList,
        optNull_strMap, optNull_gameDetailMap, optNull_settings]

theorem rt_MatchResult (r : MatchResult) :
    decodeMatchResult (encodeMatchResult r) = .ok r := by
  cases r
  simp [decodeMatchResult, encodeMatchResult, optField, getOne,
        optNull_str, optNull_intMap]

theorem rt_MatchHistoryPlayer (p : MatchHistoryPlayer) :
    decodeMatchHistoryPlayer (encodeMatchHistoryPlayer p) = .ok p := by
  cases p
  simp [decodeMatchHistoryPlayer, encodeMatchHistoryPlayer, reqField, optField,
        getOne, decStr, optNull_str, optNull_int]

theorem optNull_mhpList (v : Option (List MatchHistoryPlayer)) :
    optNull (decList decodeMatchHistoryPlayer)
      (some (encOpt (encList encodeMatchHistoryPlayer) v)) = .ok v :=
  optNull_encOpt (decList decodeMatchHistoryPlayer) (encList encodeMatchHistoryPlayer)
    (fun xs => decList_encList decodeMatchHistoryPlayer encodeMatchHistoryPlayer
      rt_MatchHistoryPlayer xs)
    (fun _ h => by simp [encList] at h) v

theorem rt_HistoryFaction (f : HistoryFaction) :
    decodeHistoryFaction (encodeHistoryFaction f) = .ok f := by
  cases f
  simp [decodeHistoryFaction, encodeHistoryFaction, optField, getOne,
        optNull_str, optNull_mhpList]

theorem optNull_factionMap (v : Option (List (String × HistoryFaction))) :
    optNull (decMap decodeHistoryFaction)
      (some (encOpt (encMap encodeHistoryFaction) v)) = .ok v :=
  optNull_encOpt (decMap decodeHistoryFaction) (encMap encodeHistoryFaction)
    (fun xs => decMap_encMap decodeHistoryFaction encodeHistoryFaction
      rt_HistoryFaction xs)
    (fun _ h => by simp [encMap] at h) v

theorem optNull_matchResult (v : Option MatchResult) :
    optNull decodeMatchResult (some (encOpt encodeMatchResult v)) = .ok v :=
  optNull_encOpt decodeMatchResult encodeMatchResult rt_MatchResult
    (fun r => by cases r; simp [encodeMatchResult]) v

theorem rt_MatchHistory (m : MatchHistory) :
    decodeMatchHistory (encodeMatchHistory m) = .ok m := by
  cases m
  simp [decodeMatchHistory, encodeMatchHistory, reqField, optField, getOne,
        decStr, optNull_str, optNull_int, optNull_strList, optNull_factionMap,
        optNull_matchResult]

theorem rt_MatchHistoryList (l : MatchHistoryList) :
    decodeMatchHistoryList (encodeMatchHistoryList l) = .ok l := by
  cases l
  simp [decodeMatchHistoryList, encodeMatchHistoryList, reqField, optField,
        getOne, decInt, optNull_int,
        decList_encList decodeMatchHistory encodeMatchHistory rt_MatchHistory]

/-- C7: for the DTO shapes deriving both Serialize and Deserialize
(Player and MatchHistoryList with all their nested shapes), serializing
any value and decoding the result reproduces the original field values. -/
theorem C7_serialize_deserialize_roundtrip (p : Player) (l : MatchHistoryList) :
    decodePlayer (encodePlayer p) = .ok p ∧
    decodeMatchHistoryList (encodeMatchHistoryList l) = .ok l :=
  ⟨rt_Player p, rt_MatchHistoryList l⟩
